import Mathlib

/-!
Shallow embedding of the recent-transactions feed controller
(`LatestTxCard` and its helpers) and the owned-objects loader
(`OwnedObject`), with the properties of the specification proved
against it.

Numbers that the source manipulates are JavaScript numbers holding
integer values; they are embedded as `Int`, with JavaScript's
truthiness tests (`!count`, `pageNum && pageNum > 0`) translated
explicitly.
-/

/-- The pair returned by `generateStartEndRange`: the half-open window of
gateway transaction sequence numbers to request. -/
structure TxRange where
  startGatewayTxSeqNumber : Int
  endGatewayTxSeqNumber : Int
deriving Repr, DecidableEq

/-- Embeds `generateStartEndRange(txCount, txNum, pageNum?)`.
`pageNum` is optional in the source, hence `Option Int`; the source's
`pageNum && pageNum > 0 ? pageNum - 1 : 0` is falsy for an absent,
zero or negative `pageNum`. -/
def generateStartEndRange (txCount txNum : Int) (pageNum : Option Int) : TxRange :=
  let txPaged : Int :=
    match pageNum with
    | some p => if 0 < p then p - 1 else 0
    | none => 0
  let endGatewayTxSeqNumber := txCount - txNum * txPaged
  { startGatewayTxSeqNumber := max (endGatewayTxSeqNumber - txNum) 0
    endGatewayTxSeqNumber := endGatewayTxSeqNumber }

/-- Embeds `Math.ceil(a / b)` for integer `a` and positive integer `b`,
as used in `Math.ceil(count / txPerPage)`. -/
def mathCeil (a b : Int) : Int := -((-a).ediv b)

/-- Embeds the clamp in `transactionQuery`:
`const maxTxPage = Math.ceil(count / txPerPage);`
`const pg = pageIndex > maxTxPage ? maxTxPage : pageIndex;`. -/
def clampPage (pageIndex count txPerPage : Int) : Int :=
  let maxTxPage := mathCeil count txPerPage
  if maxTxPage < pageIndex then maxTxPage else pageIndex

/-- Modelled from the spec: `getDataOnTxDigests` lives in `TxCardUtils`,
which is not part of the sources; per the spec it hydrates every digest
into a full record via a single batched lookup and preserves the order of
its input. It is embedded as an order-preserving map under an abstract
per-digest hydration function. -/
def getDataOnTxDigests {Digest Record : Type} (hydrate : Digest → Record)
    (digests : List Digest) : List Record :=
  digests.map hydrate

/-- Embeds `getRecentTransactions`. The RPC transport is abstracted as the
function `digestsInRange`, standing for
`rpc.getTransactionDigestsInRangeDeprecated`, and hydration as `hydrate`
(see `getDataOnTxDigests`). The source throws
`Error('Invalid transaction number')` when the window end is negative,
before issuing the range request; that is embedded as `Except.error`. -/
def getRecentTransactions {Digest Record : Type}
    (digestsInRange : Int → Int → List Digest) (hydrate : Digest → Record)
    (totalTx txNum : Int) (pageNum : Option Int) : Except String (List Record) :=
  let r := generateStartEndRange totalTx txNum pageNum
  if r.endGatewayTxSeqNumber < 0 then
    .error "Invalid transaction number"
  else
    let transactionDigests :=
      digestsInRange r.startGatewayTxSeqNumber r.endGatewayTxSeqNumber
    .ok (getDataOnTxDigests hydrate transactionDigests.reverse)

/-- Embeds the query function of `transactionQuery` up to the point where
the digest-range request would be issued: the zero/absent-count guard
(`if (!count) throw new Error('No transactions found')`), the page clamp,
and `getRecentTransactions` up to its range computation. The returned
`TxRange` is exactly the digest-range request the code would issue; an
`Except.error` result means no digest-range request is issued at all. -/
def transactionQueryFn (countData : Option Int) (txPerPage pageIndex : Int) :
    Except String TxRange :=
  match countData with
  | none => .error "No transactions found"
  | some count =>
    if count = 0 then .error "No transactions found"
    else
      let pg := clampPage pageIndex count txPerPage
      let r := generateStartEndRange count txPerPage (some pg)
      if r.endGatewayTxSeqNumber < 0 then .error "Invalid transaction number"
      else .ok r

/-! ## Poll scheduler (`paused` state, `countQuery` refetch interval,
`handlePauseChange`) -/

def TRANSACTION_POLL_TIME_SECONDS : Nat := 10

def TRANSACTION_POLL_TIME : Nat := TRANSACTION_POLL_TIME_SECONDS * 1000

/-- Embeds the `refetchInterval: paused ? false : TRANSACTION_POLL_TIME`
option of `countQuery`: `none` means timer-driven refetching is off. -/
def refetchInterval (paused : Bool) : Option Nat :=
  if paused then none else some TRANSACTION_POLL_TIME

/-- Embeds `handlePauseChange`: given the current `paused` state it returns
the next `paused` state (`setPaused((paused) => !paused)`) together with the
number of immediate `countQuery.refetch()` calls it performs
(`if (paused) { countQuery.refetch(); ... }`). -/
def handlePauseChange (paused : Bool) : Bool × Nat :=
  if paused then (false, 1) else (true, 0)

/-! ## Owned-objects loader (`OwnedObject` component) -/

/-- One entry of a `multiGetObjects` response: its `status` string and an
abstract payload standing for the rest of the response (`details` and the
fields read from it by the external helpers). -/
structure SuiObjectResponse (α : Type) where
  status : String
  payload : α
deriving Repr, DecidableEq

/-- Embeds the success continuation of the multi-get in `OwnedObject`:
`results.filter(({ status }) => status === 'Exists').map(...)`. The body of
the `.map` builds a record purely from the response entry via external
helpers (`getObjectId`, `parseObjectType`, `Coin.isCoin`, `parseImageURL`,
`transformURL`, `Coin.getBalance`, `extractName`) that are not part of the
sources; it is abstracted as the per-entry function `mk`. -/
def ownedObjectResults {α β : Type} (mk : SuiObjectResponse α → β)
    (results : List (SuiObjectResponse α)) : List β :=
  (results.filter (fun r => r.status == "Exists")).map mk

/-- The three state flags set by the effect in `OwnedObject`
(`isFail`, `isLoaded`, `results`). -/
structure OwnedObjectFlags (β : Type) where
  isFail : Bool
  isLoaded : Bool
  results : List β

/-- Embeds one run of the `useEffect` body of `OwnedObject`. The initial
request (`getOwnedObjects` or `getDynamicFields`) together with the id
extraction from its polymorphic response shape is abstracted as `idsReq`;
the multi-get hydration as `multiGetObjects`. A rejection at any step is an
`Except.error`, and the single `.catch(() => setIsFail(true))` at the end of
the chain catches every one of them; only the fully successful chain reaches
`setResults(...)` then `setIsLoaded(true)`. `prev` is the `results` state
left from before the effect (never updated on the failure path). -/
def ownedObjectEffect {α β : Type} (prev : List β)
    (idsReq : Except Unit (List String))
    (multiGetObjects : List String → Except Unit (List (SuiObjectResponse α)))
    (mk : SuiObjectResponse α → β) : OwnedObjectFlags β :=
  match idsReq with
  | .error _ => { isFail := true, isLoaded := false, results := prev }
  | .ok ids =>
    match multiGetObjects ids with
    | .error _ => { isFail := true, isLoaded := false, results := prev }
    | .ok rs =>
      { isFail := false, isLoaded := true, results := ownedObjectResults mk rs }

/-- What `OwnedObject` renders. -/
inductive OwnedObjectView (β : Type) where
  | noOwnedObjects
  | ownedObjectView (results : List β)
  | loading
deriving Repr, DecidableEq

/-- Embeds the render logic of `OwnedObject`:
`if (isFail) return <NoOwnedObjects />;`
`if (isLoaded) return <OwnedObjectView results={results} />;`
otherwise the loading placeholder. -/
def renderOwnedObject {β : Type} (f : OwnedObjectFlags β) : OwnedObjectView β :=
  if f.isFail then .noOwnedObjects
  else if f.isLoaded then .ownedObjectView f.results
  else .loading

/-- The clamp as the specification words it, for comparison with the
source's `clampPage`: maxPage is the ceiling with a minimum of 1, and the
effective page is the minimum of the requested page and maxPage. -/
def clampPageSpec (requestedPage totalCount pageSize : Int) : Int :=
  min requestedPage (max 1 (mathCeil totalCount pageSize))

/-! ## Helper lemmas -/

theorem mathCeil_lower (a b : Int) (hb : 0 < b) : a ≤ b * mathCeil a b := by
  have hq : b * ((-a).ediv b) + (-a).emod b = -a := Int.ediv_add_emod (-a) b
  have hr0 : 0 ≤ (-a).emod b := Int.emod_nonneg _ (ne_of_gt hb)
  have hmc : b * mathCeil a b = -(b * ((-a).ediv b)) := by unfold mathCeil; ring
  linarith

theorem mathCeil_upper (a b : Int) (hb : 0 < b) : b * mathCeil a b ≤ a + b - 1 := by
  have hq : b * ((-a).ediv b) + (-a).emod b = -a := Int.ediv_add_emod (-a) b
  have hr1 : (-a).emod b < b := Int.emod_lt_of_pos _ hb
  have hmc : b * mathCeil a b = -(b * ((-a).ediv b)) := by unfold mathCeil; ring
  linarith

theorem mathCeil_pos (a b : Int) (ha : 0 < a) (hb : 0 < b) : 1 ≤ mathCeil a b := by
  by_contra h
  push_neg at h
  have h0 : mathCeil a b ≤ 0 := by omega
  have hmul : b * mathCeil a b ≤ b * 0 := mul_le_mul_of_nonneg_left h0 (le_of_lt hb)
  have hl := mathCeil_lower a b hb
  rw [mul_zero] at hmul
  linarith

theorem clampPage_eq_min (pageIndex count txPerPage : Int) :
    clampPage pageIndex count txPerPage = min pageIndex (mathCeil count txPerPage) := by
  simp only [clampPage, min_def]
  split <;> split <;> omega

theorem generateStartEndRange_some (txCount txNum p : Int) :
    generateStartEndRange txCount txNum (some p) =
      { startGatewayTxSeqNumber := max (txCount - txNum * max (p - 1) 0 - txNum) 0
        endGatewayTxSeqNumber := txCount - txNum * max (p - 1) 0 } := by
  unfold generateStartEndRange
  dsimp only
  rcases lt_or_le 0 p with h | h
  · rw [if_pos h, max_eq_left (by omega : (0 : Int) ≤ p - 1)]
  · rw [if_neg (not_lt.mpr h), max_eq_right (by omega : p - 1 ≤ (0 : Int)), mul_zero]

/-! ## Claim theorems -/

/-- C1: when the fetched total count is zero (or absent), the transaction
query fails with the message of `Error('No transactions found')` and never
reaches the digest-range request: an `Except.error` result of
`transactionQueryFn` carries no `TxRange`, so no digest-range request is
issued. -/
theorem zeroCount_errors_without_range_request (txPerPage pageIndex : Int) :
    transactionQueryFn (some 0) txPerPage pageIndex =
      .error "No transactions found" ∧
    (transactionQueryFn (some 0) txPerPage pageIndex).toOption = none ∧
    transactionQueryFn none txPerPage pageIndex =
      .error "No transactions found" := by
  refine ⟨rfl, rfl, rfl⟩

/-- C2 counterexample: at `requestedPage = 1`, `totalCount = 0`,
`pageSize = 20` the source clamp returns `0`, while the claimed formula
`min(requestedPage, max(1, ceil(totalCount/pageSize)))` returns `1`; the
clamped page also falls outside the claimed interval `[1, max(1, ceil)]`. -/
theorem clampPage_spec_counterexample :
    clampPage 1 0 20 = 0 ∧ clampPageSpec 1 0 20 = 1 ∧
    ¬ (1 ≤ clampPage 1 0 20) := by
  refine ⟨by decide, by decide, by decide⟩

/-- C2 amended: for `requestedPage ≥ 1`, `totalCount ≥ 1` (the pipeline
guarantees this: a zero or absent count errors before the clamp runs) and
`pageSize ≥ 1`, the clamp returns `min(requestedPage, maxPage)` with
`maxPage = ceil(totalCount/pageSize)` (already ≥ 1, so the spec's
minimum-of-1 floor coincides), and the effective page always lies in
`[1, max(1, ceil(totalCount/pageSize))]`. -/
theorem clampPage_min_formula_of_pos_count (requestedPage totalCount pageSize : Int)
    (hreq : 1 ≤ requestedPage) (htc : 1 ≤ totalCount) (hps : 1 ≤ pageSize) :
    clampPage requestedPage totalCount pageSize = clampPageSpec requestedPage totalCount pageSize ∧
    1 ≤ clampPage requestedPage totalCount pageSize ∧
    clampPage requestedPage totalCount pageSize ≤ max 1 (mathCeil totalCount pageSize) := by
  have hM : 1 ≤ mathCeil totalCount pageSize := mathCeil_pos _ _ (by omega) (by omega)
  have hmax : max 1 (mathCeil totalCount pageSize) = mathCeil totalCount pageSize :=
    max_eq_right hM
  rw [clampPage_eq_min, clampPageSpec, hmax]
  refine ⟨rfl, le_min hreq hM, min_le_right _ _⟩

/-- C2 amended, witness. -/
theorem clampPage_min_formula_witness :
    clampPage 7 45 20 = clampPageSpec 7 45 20 ∧
    1 ≤ clampPage 7 45 20 ∧ clampPage 7 45 20 ≤ max 1 (mathCeil 45 20) :=
  clampPage_min_formula_of_pos_count 7 45 20 (by decide) (by decide) (by decide)

/-- C3: for every `totalCount`, `pageSize` and `pageIndex`, the window has
`end = totalCount - pageSize * max(pageIndex - 1, 0)` and
`start = max(end - pageSize, 0)`, and `getRecentTransactions` fails with
`Error('Invalid transaction number')` exactly when `end < 0` — in that case
the result is the same constant error for every transport, i.e. it is
produced before any digest-range request. -/
theorem window_formula_and_out_of_range_guard (totalCount pageSize pageIndex : Int) :
    (generateStartEndRange totalCount pageSize (some pageIndex)).endGatewayTxSeqNumber =
      totalCount - pageSize * max (pageIndex - 1) 0 ∧
    (generateStartEndRange totalCount pageSize (some pageIndex)).startGatewayTxSeqNumber =
      max ((totalCount - pageSize * max (pageIndex - 1) 0) - pageSize) 0 ∧
    (∀ {Digest Record : Type} (digestsInRange : Int → Int → List Digest)
        (hydrate : Digest → Record),
      ((totalCount - pageSize * max (pageIndex - 1) 0) < 0 →
        getRecentTransactions digestsInRange hydrate totalCount pageSize (some pageIndex) =
          .error "Invalid transaction number") ∧
      (0 ≤ totalCount - pageSize * max (pageIndex - 1) 0 →
        (getRecentTransactions digestsInRange hydrate totalCount pageSize
            (some pageIndex)).isOk = true)) := by
  rw [generateStartEndRange_some]
  refine ⟨rfl, rfl, fun digestsInRange hydrate => ⟨fun hneg => ?_, fun hpos => ?_⟩⟩
  · unfold getRecentTransactions
    rw [generateStartEndRange_some]
    dsimp only
    exact if_pos hneg
  · unfold getRecentTransactions
    rw [generateStartEndRange_some]
    dsimp only
    rw [if_neg (by omega)]
    rfl

/-- C3, witness: with `totalCount = 45`, `pageSize = 20`, `pageIndex = 99`
the window end is negative and the fetch fails before contacting the
transport; with `pageIndex = 1` it succeeds. -/
theorem window_formula_and_out_of_range_guard_witness :
    getRecentTransactions (fun _ _ => ([] : List Int)) (fun d => d) 45 20 (some 99) =
      .error "Invalid transaction number" ∧
    (getRecentTransactions (fun _ _ => ([] : List Int)) (fun d => d) 45 20
        (some 1)).isOk = true :=
  ⟨((window_formula_and_out_of_range_guard 45 20 99).2.2 _ _).1 (by decide),
   ((window_formula_and_out_of_range_guard 45 20 1).2.2 _ _).2 (by decide)⟩

/-- C4: for `totalCount ≥ 0`, `pageSize > 0`, `pageIndex ≥ 1`, composing the
page clamp with the window computation always yields
`0 ≤ start ≤ end ≤ totalCount`. -/
theorem clamped_window_invariant (totalCount pageSize pageIndex : Int)
    (htc : 0 ≤ totalCount) (hps : 0 < pageSize) (hpi : 1 ≤ pageIndex) :
    0 ≤ (generateStartEndRange totalCount pageSize
          (some (clampPage pageIndex totalCount pageSize))).startGatewayTxSeqNumber ∧
    (generateStartEndRange totalCount pageSize
        (some (clampPage pageIndex totalCount pageSize))).startGatewayTxSeqNumber ≤
      (generateStartEndRange totalCount pageSize
        (some (clampPage pageIndex totalCount pageSize))).endGatewayTxSeqNumber ∧
    (generateStartEndRange totalCount pageSize
        (some (clampPage pageIndex totalCount pageSize))).endGatewayTxSeqNumber ≤
      totalCount := by
  set pg := clampPage pageIndex totalCount pageSize with hpg
  have hpgM : pg ≤ mathCeil totalCount pageSize := by
    rw [hpg, clampPage_eq_min]
    exact min_le_right _ _
  have hupper := mathCeil_upper totalCount pageSize hps
  rw [generateStartEndRange_some]
  dsimp only
  rcases le_or_lt pg 1 with h1 | h1
  · rw [max_eq_right (by omega : pg - 1 ≤ (0 : Int)), mul_zero, sub_zero]
    exact ⟨le_max_right _ _, max_le (by omega) htc, le_refl _⟩
  · rw [max_eq_left (by omega : (0 : Int) ≤ pg - 1)]
    have hmul : pageSize * (pg - 1) ≤ pageSize * (mathCeil totalCount pageSize - 1) :=
      mul_le_mul_of_nonneg_left (by omega) hps.le
    have heq : pageSize * (mathCeil totalCount pageSize - 1) =
        pageSize * mathCeil totalCount pageSize - pageSize := by ring
    have hub : pageSize * (pg - 1) ≤ totalCount - 1 := by linarith
    have hlb : 0 ≤ pageSize * (pg - 1) := mul_nonneg hps.le (by omega)
    exact ⟨le_max_right _ _, max_le (by linarith) (by linarith), by linarith⟩

/-- C4, witness. -/
theorem clamped_window_invariant_witness :
    0 ≤ (generateStartEndRange 45 20
          (some (clampPage 3 45 20))).startGatewayTxSeqNumber ∧
    (generateStartEndRange 45 20 (some (clampPage 3 45 20))).startGatewayTxSeqNumber ≤
      (generateStartEndRange 45 20 (some (clampPage 3 45 20))).endGatewayTxSeqNumber ∧
    (generateStartEndRange 45 20 (some (clampPage 3 45 20))).endGatewayTxSeqNumber ≤ 45 :=
  clamped_window_invariant 45 20 3 (by decide) (by decide) (by decide)

/-- C5: when the transport returns the ascending digest list `ds` for the
computed window (a fetch that passes the range guard), the fetched record
order is the reverse of hydrating `ds` in order — i.e. latest-first:
`[hydrate dn, ..., hydrate d1]`. -/
theorem fetch_is_latest_first {Digest Record : Type}
    (digestsInRange : Int → Int → List Digest) (hydrate : Digest → Record)
    (totalTx txNum : Int) (pageNum : Option Int) (ds : List Digest)
    (hend : 0 ≤ (generateStartEndRange totalTx txNum pageNum).endGatewayTxSeqNumber)
    (hds : digestsInRange
        (generateStartEndRange totalTx txNum pageNum).startGatewayTxSeqNumber
        (generateStartEndRange totalTx txNum pageNum).endGatewayTxSeqNumber = ds) :
    getRecentTransactions digestsInRange hydrate totalTx txNum pageNum =
      .ok ((ds.map hydrate).reverse) := by
  unfold getRecentTransactions
  dsimp only
  rw [if_neg (by omega), hds]
  unfold getDataOnTxDigests
  rw [List.map_reverse]

/-- C5, witness: a transport answering `[10, 11, 12]` yields the hydrated
records in the order `[hydrate 12, hydrate 11, hydrate 10]`. -/
theorem fetch_is_latest_first_witness :
    getRecentTransactions (fun _ _ => [10, 11, 12]) (fun d : Int => d * 2)
      3 3 (some 1) = .ok [24, 22, 20] := by
  rw [fetch_is_latest_first (fun _ _ => [10, 11, 12]) (fun d : Int => d * 2)
    3 3 (some 1) [10, 11, 12] (by decide) rfl]
  rfl

/-- C6: with `totalCount = 45` and `pageSize = 20`, the clamp-then-window
pipeline maps `pageIndex = 1` to the window `{start = 25, end = 45}` and
`pageIndex = 3` to `{start = 0, end = 5}`, with `maxPage = ceil(45/20) = 3`. -/
theorem scenario_45_20_windows :
    generateStartEndRange 45 20 (some (clampPage 1 45 20)) = ⟨25, 45⟩ ∧
    generateStartEndRange 45 20 (some (clampPage 3 45 20)) = ⟨0, 5⟩ ∧
    mathCeil 45 20 = 3 := by
  decide

/-- C7: the owned-objects loader keeps exactly the multi-get entries whose
status is `Exists` and drops all others (producing a plain list, never an
error); in particular `[{status: Exists}, {status: NotFound}]` yields
exactly the one record built from the `Exists` entry. -/
theorem ownedObjects_keeps_exactly_exists {α β : Type}
    (mk : SuiObjectResponse α → β) (rs : List (SuiObjectResponse α))
    (e nf : SuiObjectResponse α)
    (he : e.status = "Exists") (hn : nf.status = "NotFound") :
    ownedObjectResults mk [e, nf] = [mk e] ∧
    (∀ b, b ∈ ownedObjectResults mk rs →
      ∃ r, r ∈ rs ∧ r.status = "Exists" ∧ b = mk r) ∧
    (∀ r, r ∈ rs → r.status = "Exists" → mk r ∈ ownedObjectResults mk rs) := by
  refine ⟨?_, ?_, ?_⟩
  · simp [ownedObjectResults, he, hn]
  · intro b hb
    simp only [ownedObjectResults, List.mem_map, List.mem_filter] at hb
    obtain ⟨r, ⟨hr, hst⟩, hmk⟩ := hb
    exact ⟨r, hr, by simpa using hst, hmk.symm⟩
  · intro r hr hst
    simp only [ownedObjectResults, List.mem_map, List.mem_filter]
    exact ⟨r, ⟨hr, by simp [hst]⟩, rfl⟩

/-- C7, witness. -/
theorem ownedObjects_keeps_exactly_exists_witness :
    ownedObjectResults (fun _ : SuiObjectResponse Unit => (7 : Nat))
      [⟨"Exists", ()⟩, ⟨"NotFound", ()⟩] = [7] :=
  (ownedObjects_keeps_exactly_exists _ [] ⟨"Exists", ()⟩ ⟨"NotFound", ()⟩ rfl rfl).1

/-- C8: an error at any step of the owned-objects load — the initial id
query (with its id extraction) or the multi-get hydration — collapses to the
single terminal fail view `NoOwnedObjects`, which carries no results: no
partial result is ever presented. -/
theorem anyStep_error_collapses_to_fail {α β : Type} (prev : List β)
    (idsReq : Except Unit (List String))
    (multiGetObjects : List String → Except Unit (List (SuiObjectResponse α)))
    (mk : SuiObjectResponse α → β)
    (herr : idsReq = .error () ∨
      ∃ ids, idsReq = .ok ids ∧ multiGetObjects ids = .error ()) :
    renderOwnedObject (ownedObjectEffect prev idsReq multiGetObjects mk) =
      .noOwnedObjects := by
  rcases herr with h | ⟨ids, hok, hmg⟩
  · subst h
    rfl
  · subst hok
    simp [ownedObjectEffect, renderOwnedObject, hmg]

/-- C8, witness. -/
theorem anyStep_error_collapses_to_fail_witness :
    renderOwnedObject (ownedObjectEffect ([] : List Nat) (.error ())
      (fun _ => (.error () : Except Unit (List (SuiObjectResponse Unit))))
      (fun _ => 0)) = .noOwnedObjects :=
  anyStep_error_collapses_to_fail _ _ _ _ (Or.inl rfl)

/-- C9: toggling from paused to running performs exactly one immediate
count refetch and re-enables the poll timer; toggling from running to
paused performs no refetch and disables the timer. -/
theorem pause_resume_transitions (paused : Bool) :
    (paused = true →
      handlePauseChange paused = (false, 1) ∧
      refetchInterval (handlePauseChange paused).1 = some TRANSACTION_POLL_TIME) ∧
    (paused = false →
      handlePauseChange paused = (true, 0) ∧
      refetchInterval (handlePauseChange paused).1 = none) := by
  cases paused <;> simp [handlePauseChange, refetchInterval]

/-- C9, witness. -/
theorem pause_resume_transitions_witness :
    (handlePauseChange true = (false, 1) ∧
      refetchInterval (handlePauseChange true).1 = some TRANSACTION_POLL_TIME) ∧
    (handlePauseChange false = (true, 0) ∧
      refetchInterval (handlePauseChange false).1 = none) :=
  ⟨(pause_resume_transitions true).1 rfl, (pause_resume_transitions false).2 rfl⟩

/-- C10: `generateStartEndRange` is a total function (its embedding returns
a `TxRange` unconditionally; the source body contains no throw), and for an
absent, zero or negative `pageNum` it behaves exactly as page 1:
`end = txCount` and `start = max(txCount - txNum, 0)`. -/
theorem window_default_page_behaviour (txCount txNum : Int) (pageNum : Option Int)
    (htc : 0 ≤ txCount) (htn : 0 < txNum)
    (hpn : pageNum = none ∨ ∃ p, pageNum = some p ∧ p ≤ 0) :
    generateStartEndRange txCount txNum pageNum =
      generateStartEndRange txCount txNum (some 1) ∧
    (generateStartEndRange txCount txNum pageNum).endGatewayTxSeqNumber = txCount ∧
    (generateStartEndRange txCount txNum pageNum).startGatewayTxSeqNumber =
      max (txCount - txNum) 0 := by
  have h1 : generateStartEndRange txCount txNum (some 1) =
      { startGatewayTxSeqNumber := max (txCount - txNum) 0
        endGatewayTxSeqNumber := txCount } := by
    rw [generateStartEndRange_some]
    simp
  rcases hpn with h | ⟨p, hp, hple⟩
  · subst h
    have h0 : generateStartEndRange txCount txNum none =
        { startGatewayTxSeqNumber := max (txCount - txNum) 0
          endGatewayTxSeqNumber := txCount } := by
      unfold generateStartEndRange
      dsimp only
      rw [mul_zero, sub_zero]
    rw [h0, h1]
    exact ⟨rfl, rfl, rfl⟩
  · subst hp
    have h0 : generateStartEndRange txCount txNum (some p) =
        { startGatewayTxSeqNumber := max (txCount - txNum) 0
          endGatewayTxSeqNumber := txCount } := by
      rw [generateStartEndRange_some,
        max_eq_right (by omega : p - 1 ≤ (0 : Int)), mul_zero, sub_zero]
    rw [h0, h1]
    exact ⟨rfl, rfl, rfl⟩

/-- C10, witness. -/
theorem window_default_page_behaviour_witness :
    generateStartEndRange 7 3 none = generateStartEndRange 7 3 (some 1) ∧
    (generateStartEndRange 7 3 none).endGatewayTxSeqNumber = 7 ∧
    (generateStartEndRange 7 3 none).startGatewayTxSeqNumber = max (7 - 3) 0 :=
  window_default_page_behaviour 7 3 none (by decide) (by decide) (Or.inl rfl)
